import Mathlib

/-!
Formal model of the WAQI configuration flow
(src/custom_components/waqi-test/config_flow.py and const.py).

The config flow is a small state machine: an entry step choosing between a
keyword-search path and a direct-feed path, a search step calling the remote
client, a station-picking step, a direct-feed step, plus a single-step options
flow.  Each Python step handler is embedded as a pure Lean function from the
(optional) submitted form dictionary to a flow result; the remote client is an
abstract pair of functions, the set of already-configured unique ids is an
explicit parameter, and the instance attributes written by the search step are
returned as an explicit session value.

Two places of the source do not execute as written and are embedded as crash
outcomes, documented at the step definitions:
 - the error-redisplay schema of async_step_user_search, config_flow.py
   lines 99-114, is syntactically malformed (mismatched parentheses), so that
   branch can never produce a form;
 - line 93 assigns to errors at key CONF_BASE, a name that is neither defined
   in the module nor imported, so reaching that handler raises a NameError.
Uncaught Python exceptions in general (KeyError on a missing dictionary key,
NameError on an unbound variable) are embedded as the crash constructor of
the result type.
-/

/-- Values carried in submitted form dictionaries: strings or integers
(the only field types the flow's schemas use). -/
inductive Value
  | str (s : String)
  | int (n : Int)
  deriving DecidableEq, Repr

/-- A Python dict of form data: an association list with at most one binding
per key (the host hands each step a plain dict). -/
abbrev Dict := List (String × Value)

/-- Dictionary key lookup; none models a KeyError site. -/
def dictLookup (d : Dict) (k : String) : Option Value :=
  match d with
  | [] => none
  | (k2, v) :: rest => if k2 = k then some v else dictLookup rest k

/-- Python truthiness of an optional dict: None and the empty dict are falsy
(the guard written as if not user_input in async_step_user_search). -/
def truthy (ui : Option Dict) : Bool :=
  match ui with
  | none => false
  | some d => !d.isEmpty

/-- const.py: CONF_API_TOKEN. -/
def CONF_API_TOKEN : String := "api_token"

/-- const.py: CONF_KEYWORD. -/
def CONF_KEYWORD : String := "keyword"

/-- const.py: CONF_STATION. -/
def CONF_STATION : String := "station"

/-- const.py: CONF_UPDATE_INTERVAL. -/
def CONF_UPDATE_INTERVAL : String := "update_interval"

/-- const.py: DEFAULT_UPDATE_INTERVAL = 900. -/
def DEFAULT_UPDATE_INTERVAL : Int := 900

/-- config_flow.py: FLOW_FEED. -/
def FLOW_FEED : String := "Enter the station ID"

/-- config_flow.py: FLOW_SEARCH. -/
def FLOW_SEARCH : String := "Find stations from an area/city name"

/-- config_flow.py: FLOW_TYPE. -/
def FLOW_TYPE : String := "flow_type"

/-- The validator attached to a schema field: plain string, plain integer, or
a vol.In enumeration of admissible values. -/
inductive FieldType
  | tStr
  | tInt
  | tIn (choices : List Value)
  deriving DecidableEq, Repr

/-- Whether a field validator admits a submitted value (host-side schema
validation: vol.In rejects values outside its list). -/
def FieldType.admits : FieldType → Value → Bool
  | .tStr, .str _ => true
  | .tStr, .int _ => false
  | .tInt, .int _ => true
  | .tInt, .str _ => false
  | .tIn xs, v => decide (v ∈ xs)

/-- One field descriptor of a voluptuous schema: name, vol.Required versus
vol.Optional, the declared default (applied by the host when the field is
not submitted), and the validator. -/
structure FieldDesc where
  fname : String
  required : Bool
  default : Option Value
  ftype : FieldType
  deriving DecidableEq, Repr

/-- Outcome of one step invocation: a (re)displayed form with its schema and
error dict, a created entry (async_create_entry, together with the unique id
set on the flow, if any), a flow abort, or an uncaught Python exception. -/
inductive FlowResult
  | showForm (stepId : String) (schema : List FieldDesc) (errors : List (String × String))
  | createEntry (title : String) (uniqueId : Option Value) (data : Dict) (options : Dict)
  | abort (reason : String)
  | crash (exc : String)
  deriving DecidableEq, Repr

/-- The instance attributes the search step stores for the pick-station step:
self dot _api_token, self dot _update_interval, self dot _stations. -/
structure Session where
  api_token : Value
  update_interval : Value
  stations : List (String × String)
  deriving DecidableEq, Repr

/-- Failure kinds of the remote client: waqi.OverQuota, waqi.InvalidToken, or
any other exception (carrying its Python type name). -/
inductive ClientError
  | overQuota
  | invalidToken
  | other (ename : String)
  deriving DecidableEq, Repr

/-- One element of a client.search result: the source reads station at key
uid and station at key station, key name. -/
structure SearchEntry where
  uid : String
  sname : String
  deriving DecidableEq, Repr

/-- A non-empty client.feed result: the source only reads its uid key. -/
structure FeedData where
  uid : String
  deriving DecidableEq, Repr

/-- The remote station directory client, abstracted as two functions of the
constructor token and the call argument.  A feed result of none models an
empty or falsy feed dict. -/
structure Client where
  search : Value → Value → Except ClientError (List SearchEntry)
  feed : Value → Value → Except ClientError (Option FeedData)

/-- CONFIG_SCHEMA, config_flow.py lines 26-28: one required flow_type field,
default FLOW_SEARCH, validated by vol.In of the two enumerated values. -/
def CONFIG_SCHEMA : List FieldDesc :=
  [⟨FLOW_TYPE, true, some (.str FLOW_SEARCH), .tIn [.str FLOW_SEARCH, .str FLOW_FEED]⟩]

/-- Initial schema of the search step, config_flow.py lines 67-76. -/
def searchInitSchema : List FieldDesc :=
  [⟨CONF_API_TOKEN, true, none, .tStr⟩,
   ⟨CONF_KEYWORD, true, none, .tStr⟩,
   ⟨CONF_UPDATE_INTERVAL, false, some (.int DEFAULT_UPDATE_INTERVAL), .tInt⟩]

/-- Initial schema of the direct-feed step, config_flow.py lines 197-206. -/
def feedInitSchema : List FieldDesc :=
  [⟨CONF_API_TOKEN, true, none, .tStr⟩,
   ⟨CONF_STATION, true, none, .tStr⟩,
   ⟨CONF_UPDATE_INTERVAL, false, some (.int DEFAULT_UPDATE_INTERVAL), .tInt⟩]

/-- Schema of the pick-station form, config_flow.py lines 153-155: one
required station field validated by vol.In over the station dict, whose
iteration yields its keys. -/
def pickStationSchema (stations : List (String × String)) : List FieldDesc :=
  [⟨CONF_STATION, true, none, .tIn (stations.map (fun p => Value.str p.1))⟩]

/-- Python dict assignment on the stations dict: overwrite in place when the
key exists, append otherwise (insertion order preserved). -/
def dictInsertS (d : List (String × String)) (k v : String) : List (String × String) :=
  if d.any (fun p => p.1 == k) then
    d.map (fun p => if p.1 == k then (k, v) else p)
  else d ++ [(k, v)]

/-- The loop of config_flow.py lines 118-122 building self dot _stations from
the search results: for each result, stations at key uid gets the nested
station name. -/
def buildStations (found : List SearchEntry) : List (String × String) :=
  found.foldl (fun d e => dictInsertS d e.uid e.sname) []

/-- Lookup in the stations dict; none models the KeyError of indexing
self dot _stations with an absent key. -/
def lookupS (d : List (String × String)) (k : String) : Option String :=
  match d with
  | [] => none
  | (k2, v) :: rest => if k2 = k then some v else lookupS rest k

/-- async_step_user_search, config_flow.py lines 58-127.  Falsy input (None
or the empty dict) shows the blank initial form.  Otherwise the try block
looks up the token and keyword and calls client.search; a missing key raises
KeyError, caught by the except Exception handler, which itself crashes with a
NameError because CONF_BASE is undefined (line 93), as does any failure other
than OverQuota and InvalidToken.  When the errors dict is non-empty (the two
token failures and the empty result set) the code reaches the redisplay
async_show_form of lines 97-116, whose schema expression (lines 99-114) is
syntactically malformed, embedded as a crash.  On success with results it
builds the stations dict, stores the session attributes (the interval lookup
of line 125 is outside the try, so a missing key is an uncaught KeyError) and
returns the pick-station form. -/
def stepUserSearch (c : Client) (ui : Option Dict) : FlowResult × Option Session :=
  if truthy ui = false then
    (.showForm "user_search" searchInitSchema [], none)
  else
    let d := ui.getD []
    match dictLookup d CONF_API_TOKEN with
    | none => (.crash "NameError: CONF_BASE is undefined", none)
    | some tok =>
      match dictLookup d CONF_KEYWORD with
      | none => (.crash "NameError: CONF_BASE is undefined", none)
      | some kw =>
        match c.search tok kw with
        | .error .overQuota => (.crash "SyntaxError: malformed redisplay schema", none)
        | .error .invalidToken => (.crash "SyntaxError: malformed redisplay schema", none)
        | .error (.other _) => (.crash "NameError: CONF_BASE is undefined", none)
        | .ok found =>
          if found.isEmpty then
            (.crash "SyntaxError: malformed redisplay schema", none)
          else
            match dictLookup d CONF_UPDATE_INTERVAL with
            | none => (.crash "KeyError: update_interval", none)
            | some iv =>
              let stations := buildStations found
              (.showForm "pick_station" (pickStationSchema stations) [],
               some ⟨tok, iv, stations⟩)

/-- async_step_pick_station, config_flow.py lines 129-157.  With input, the
selected value becomes the unique id; if it is already configured the flow
aborts (the default abort reason of the host's uniqueness helper), otherwise
the entry is created with the station's stored display name as title, empty
data, and the session token and interval as options.  A non-string selection
can never equal an existing string unique id and indexing the stations dict
with it raises KeyError. -/
def stepPickStation (configured : List String) (sess : Session)
    (ui : Option Dict) : FlowResult :=
  match ui with
  | none => .showForm "pick_station" (pickStationSchema sess.stations) []
  | some d =>
    match dictLookup d CONF_STATION with
    | none => .crash "KeyError: station"
    | some v =>
      match v with
      | .str uid =>
        if configured.contains uid then .abort "already_configured"
        else
          match lookupS sess.stations uid with
          | none => .crash "KeyError: station id not in stations"
          | some nm =>
            .createEntry nm (some (.str uid)) []
              [(CONF_API_TOKEN, sess.api_token),
               (CONF_UPDATE_INTERVAL, sess.update_interval)]
      | .int _ => .crash "KeyError: station id not in stations"

/-- async_step_user_feed, config_flow.py lines 159-208.  With input, the try
block looks up token and station and calls client.feed; a KeyError there is
caught by the bare except, which aborts with reason unknown, as does any
failure other than OverQuota and InvalidToken.  OverQuota and InvalidToken
set an error but the function never checks its errors dict: control falls
through to the async_create_entry of lines 186-193, whose first argument
evaluates station at key uid while station was never assigned, an uncaught
NameError.  Without an exception the else clause sets the submitted station
id as unique id and aborts when it is already configured; then the entry is
created, which on an empty or falsy feed crashes evaluating station at key
uid, and otherwise uses the feed's uid as title, empty data, and the
submitted token and interval as options (the interval lookup of line 191 is
outside the try, so a missing key is an uncaught KeyError). -/
def stepUserFeed (configured : List String) (c : Client)
    (ui : Option Dict) : FlowResult :=
  match ui with
  | none => .showForm "user_feed" feedInitSchema []
  | some d =>
    match dictLookup d CONF_API_TOKEN with
    | none => .abort "unknown"
    | some tok =>
      match dictLookup d CONF_STATION with
      | none => .abort "unknown"
      | some stv =>
        match c.feed tok stv with
        | .error .overQuota => .crash "NameError: station is unbound"
        | .error .invalidToken => .crash "NameError: station is unbound"
        | .error (.other _) => .abort "unknown"
        | .ok stationOpt =>
          if (match stv with
              | .str s => configured.contains s
              | .int _ => false) then
            .abort "already_configured"
          else
            match stationOpt with
            | none => .crash "KeyError: uid on empty feed"
            | some fd =>
              match dictLookup d CONF_UPDATE_INTERVAL with
              | none => .crash "KeyError: update_interval"
              | some iv =>
                .createEntry fd.uid (some stv) []
                  [(CONF_API_TOKEN, tok), (CONF_UPDATE_INTERVAL, iv)]

/-- async_step_user, config_flow.py lines 40-56: dispatch on the flow_type
value, calling the chosen sub-step with no input; any other value falls
through to redisplaying the entry form. -/
def stepUser (c : Client) (configured : List String)
    (ui : Option Dict) : FlowResult :=
  match ui with
  | none => .showForm "user" CONFIG_SCHEMA []
  | some d =>
    match dictLookup d FLOW_TYPE with
    | none => .crash "KeyError: flow_type"
    | some v =>
      if v = .str FLOW_SEARCH then (stepUserSearch c none).1
      else if v = .str FLOW_FEED then stepUserFeed configured c none
      else .showForm "user" CONFIG_SCHEMA []

/-- OptionsFlow.async_step_init, config_flow.py lines 224-248: with input,
immediately create an entry with empty title and the submitted dict as data;
without input, show the form whose interval default is the stored option or
DEFAULT_UPDATE_INTERVAL. -/
def stepOptionsInit (stored : Dict) (ui : Option Dict) : FlowResult :=
  match ui with
  | some d => .createEntry "" none d []
  | none =>
    .showForm "init"
      [⟨CONF_API_TOKEN, true, none, .tStr⟩,
       ⟨CONF_UPDATE_INTERVAL, false,
        some ((dictLookup stored CONF_UPDATE_INTERVAL).getD
          (.int DEFAULT_UPDATE_INTERVAL)), .tInt⟩]
      []

/-- A validated search submission dict. -/
def mkSearchInput (tok kw : String) (iv : Int) : Dict :=
  [(CONF_API_TOKEN, .str tok), (CONF_KEYWORD, .str kw),
   (CONF_UPDATE_INTERVAL, .int iv)]

/-- A validated direct-feed submission dict. -/
def mkFeedInput (tok st : String) (iv : Int) : Dict :=
  [(CONF_API_TOKEN, .str tok), (CONF_STATION, .str st),
   (CONF_UPDATE_INTERVAL, .int iv)]

/-- A client whose calls always raise OverQuota. -/
def overQuotaClient : Client :=
  ⟨fun _ _ => .error .overQuota, fun _ _ => .error .overQuota⟩

/-- A client whose calls always raise InvalidToken. -/
def invalidTokenClient : Client :=
  ⟨fun _ _ => .error .invalidToken, fun _ _ => .error .invalidToken⟩

/-- A client whose search finds nothing and whose feed is empty. -/
def emptyResultClient : Client :=
  ⟨fun _ _ => .ok [], fun _ _ => .ok none⟩

/-- A client whose calls raise a connection timeout. -/
def timeoutClient : Client :=
  ⟨fun _ _ => .error (.other "TimeoutError"),
   fun _ _ => .error (.other "TimeoutError")⟩

/-- A client whose search finds the single station A1, Paris Center. -/
def parisClient : Client :=
  ⟨fun _ _ => .ok [⟨"A1", "Paris Center"⟩], fun _ _ => .ok none⟩

/-- A client whose search returns two results sharing the uid A1. -/
def dupUidClient : Client :=
  ⟨fun _ _ => .ok [⟨"A1", "Paris Center"⟩, ⟨"A1", "Paris East"⟩],
   fun _ _ => .ok none⟩

/-- A client whose feed returns the station with uid 5000. -/
def station5000Client : Client :=
  ⟨fun _ _ => .ok [], fun _ _ => .ok (some ⟨"5000"⟩)⟩

/-- C1: the spec claims that a DirectFeed submission whose feed call fails
with OverQuota or InvalidToken, or succeeds with an empty feed, gets a
field-level error and a redisplayed form, never aborting and never creating
an entry.  The source instead never consults its errors dict: evaluated on
those inputs, the step crashes (NameError on the unbound station variable
after the two token failures, KeyError evaluating uid on an empty feed), and
on an empty feed whose station id is already configured it even aborts. -/
theorem claim_C1_feed_error_paths :
    stepUserFeed [] overQuotaClient (some (mkFeedInput "T" "5000" 900)) =
      .crash "NameError: station is unbound"
    ∧ stepUserFeed [] invalidTokenClient (some (mkFeedInput "T" "5000" 900)) =
      .crash "NameError: station is unbound"
    ∧ stepUserFeed [] emptyResultClient (some (mkFeedInput "T" "5000" 900)) =
      .crash "KeyError: uid on empty feed"
    ∧ stepUserFeed ["5000"] emptyResultClient (some (mkFeedInput "T" "5000" 900)) =
      .abort "already_configured" := by
  refine ⟨?_, ?_, ?_, ?_⟩ <;> decide

/-- C2: the spec claims that a Search submission failing with OverQuota
redisplays the form with the token error api_over_quota and the prior token,
keyword and interval retained as defaults.  The source does assign that error
value (line 89), but the redisplay schema of lines 99-114 is syntactically
malformed, so the redisplay can never be produced; the embedding evaluates
the step to a crash at that point. -/
theorem claim_C2_search_overquota :
    stepUserSearch overQuotaClient (some (mkSearchInput "T" "paris" 600)) =
      (.crash "SyntaxError: malformed redisplay schema", none) := by
  decide

/-- C3: the spec claims that a Search submission failing with anything other
than OverQuota and InvalidToken redisplays the form with the base error
unknown and never aborts.  The source's handler assigns to errors at key
CONF_BASE, a name the module never defines or imports, so the handler itself
raises a NameError; the embedding evaluates the step to that crash. -/
theorem claim_C3_search_unknown :
    stepUserSearch timeoutClient (some (mkSearchInput "T" "paris" 600)) =
      (.crash "NameError: CONF_BASE is undefined", none) := by
  decide

/-- C4: in the DirectFeed step, every submission whose feed call raises a
failure that is neither OverQuota nor InvalidToken is caught by the bare
except of line 178 and terminates the flow with abort reason unknown; the
result is an abort, not a created entry. -/
theorem claim_C4_feed_unknown_aborts (configured : List String) (c : Client)
    (tok st : String) (iv : Int) (e : String)
    (h : c.feed (.str tok) (.str st) = .error (.other e)) :
    stepUserFeed configured c (some (mkFeedInput tok st iv)) = .abort "unknown" := by
  simp [stepUserFeed, mkFeedInput, dictLookup, CONF_API_TOKEN, CONF_STATION,
    CONF_UPDATE_INTERVAL, h]

/-- Witness for C4 at a concrete client raising TimeoutError. -/
theorem claim_C4_witness :
    stepUserFeed [] timeoutClient (some (mkFeedInput "T" "5000" 900)) =
      .abort "unknown" :=
  claim_C4_feed_unknown_aborts [] timeoutClient "T" "5000" 900 "TimeoutError" rfl

/-- C5: a station id already present among the configured unique ids makes
both paths abort with reason already_configured before any entry creation:
the pick-station step aborts for every session, and the direct-feed step
aborts for every client whose feed call for that id succeeds with a
non-empty feed.  Since the outcome is an abort, no entry (and hence no
duplicate record for that id) is ever created. -/
theorem claim_C5_duplicate_aborts (configured : List String) (uid : String)
    (hdup : configured.contains uid = true) :
    (∀ sess : Session,
        stepPickStation configured sess (some [(CONF_STATION, Value.str uid)]) =
          .abort "already_configured")
    ∧ (∀ (c : Client) (tok : String) (iv : Int) (fd : FeedData),
        c.feed (.str tok) (.str uid) = .ok (some fd) →
        stepUserFeed configured c (some (mkFeedInput tok uid iv)) =
          .abort "already_configured") := by
  have hm : uid ∈ configured := by simpa using hdup
  constructor
  · intro sess
    simp [stepPickStation, dictLookup, hm]
  · intro c tok iv fd h
    simp [stepUserFeed, mkFeedInput, dictLookup, CONF_API_TOKEN, CONF_STATION,
      CONF_UPDATE_INTERVAL, h, hm]

/-- Witness for C5 with uid 5000 already configured, on both paths. -/
theorem claim_C5_witness :
    stepPickStation ["5000"] ⟨.str "T", .int 900, []⟩
        (some [(CONF_STATION, Value.str "5000")]) = .abort "already_configured"
    ∧ stepUserFeed ["5000"] station5000Client (some (mkFeedInput "T" "5000" 900)) =
        .abort "already_configured" :=
  ⟨(claim_C5_duplicate_aborts ["5000"] "5000" (by decide)).1 ⟨.str "T", .int 900, []⟩,
   (claim_C5_duplicate_aborts ["5000"] "5000" (by decide)).2
     station5000Client "T" 900 ⟨"5000"⟩ rfl⟩

/-- C10: the Search step guards its input with Python truthiness, so both
None and the empty dict show the blank initial search form with its default
interval; the Entry, PickStation, DirectFeed and Options steps guard with
is-not-None, so the empty dict enters their submission branch (here: a
KeyError crash on the missing flow_type or station key, an abort with reason
unknown from the bare except catching the feed step's KeyError, and an
options entry created from the empty dict), never the initial form. -/
theorem claim_C10_falsy_input_guard (c : Client) (configured : List String)
    (sess : Session) (stored : Dict) :
    stepUserSearch c (some []) = (.showForm "user_search" searchInitSchema [], none)
    ∧ stepUserSearch c none = (.showForm "user_search" searchInitSchema [], none)
    ∧ stepUser c configured (some []) = .crash "KeyError: flow_type"
    ∧ stepPickStation configured sess (some []) = .crash "KeyError: station"
    ∧ stepUserFeed configured c (some []) = .abort "unknown"
    ∧ stepOptionsInit stored (some []) = .createEntry "" none [] [] := by
  refine ⟨rfl, rfl, rfl, rfl, rfl, rfl⟩

/-- C7: a DirectFeed submission whose feed call succeeds with a non-empty
feed, for a station id that is not yet configured, creates an entry titled
with the feed's uid field, with empty data and options holding the submitted
token and interval; and the step's initial form declares the interval field
optional with default DEFAULT_UPDATE_INTERVAL = 900, which the host applies
when the interval is not supplied. -/
theorem claim_C7_feed_success_creates (configured : List String) (c : Client)
    (tok st : String) (iv : Int) (fd : FeedData)
    (hf : c.feed (.str tok) (.str st) = .ok (some fd))
    (hcf : st ∉ configured) :
    stepUserFeed configured c (some (mkFeedInput tok st iv)) =
      .createEntry fd.uid (some (.str st)) []
        [(CONF_API_TOKEN, Value.str tok), (CONF_UPDATE_INTERVAL, Value.int iv)]
    ∧ stepUserFeed configured c none = .showForm "user_feed" feedInitSchema []
    ∧ feedInitSchema =
        [⟨CONF_API_TOKEN, true, none, .tStr⟩,
         ⟨CONF_STATION, true, none, .tStr⟩,
         ⟨CONF_UPDATE_INTERVAL, false, some (.int 900), .tInt⟩] := by
  refine ⟨?_, rfl, by decide⟩
  simp [stepUserFeed, mkFeedInput, dictLookup, CONF_API_TOKEN, CONF_STATION,
    CONF_UPDATE_INTERVAL, hf, hcf]

/-- Witness for C7: the end-to-end direct-feed example with token T, station
5000, interval 900, feed returning uid 5000, and nothing configured yet. -/
theorem claim_C7_witness :
    stepUserFeed [] station5000Client (some (mkFeedInput "T" "5000" 900)) =
      .createEntry "5000" (some (.str "5000")) []
        [(CONF_API_TOKEN, Value.str "T"), (CONF_UPDATE_INTERVAL, Value.int 900)] :=
  (claim_C7_feed_success_creates [] station5000Client "T" "5000" 900 ⟨"5000"⟩
    rfl (by decide)).1

/-- C8: submitting the entry step with the search choice (the enumerated
value FLOW_SEARCH) returns the initial search form, submitting the feed
choice (FLOW_FEED) returns the initial direct-feed form, and every other
value is rejected by CONFIG_SCHEMA's vol.In validator before either state is
reached (and even a value that bypassed validation only redisplays the entry
form).  The spec's shorthand values search and feed name these two
enumerated choices. -/
theorem claim_C8_entry_dispatch (c : Client) (configured : List String) :
    stepUser c configured (some [(FLOW_TYPE, Value.str FLOW_SEARCH)]) =
      .showForm "user_search" searchInitSchema []
    ∧ stepUser c configured (some [(FLOW_TYPE, Value.str FLOW_FEED)]) =
      .showForm "user_feed" feedInitSchema []
    ∧ (∀ v : Value, v ≠ .str FLOW_SEARCH → v ≠ .str FLOW_FEED →
        (∀ fd ∈ CONFIG_SCHEMA, fd.ftype.admits v = false)
        ∧ stepUser c configured (some [(FLOW_TYPE, v)]) =
            .showForm "user" CONFIG_SCHEMA []) := by
  refine ⟨rfl, rfl, ?_⟩
  intro v hv1 hv2
  constructor
  · intro fd hfd
    simp only [CONFIG_SCHEMA, List.mem_singleton] at hfd
    subst hfd
    simp [FieldType.admits, hv1, hv2]
  · simp [stepUser, dictLookup, hv1, hv2]

/-- Witness for C8: the literal string search is itself not one of the two
enumerated choice values and is rejected by the schema. -/
theorem claim_C8_witness :
    stepUser parisClient [] (some [(FLOW_TYPE, Value.str FLOW_SEARCH)]) =
      .showForm "user_search" searchInitSchema []
    ∧ (∀ fd ∈ CONFIG_SCHEMA, fd.ftype.admits (Value.str "search") = false) :=
  ⟨(claim_C8_entry_dispatch parisClient []).1,
   ((claim_C8_entry_dispatch parisClient []).2.2 (Value.str "search")
     (by decide) (by decide)).1⟩

/-- C9: the options flow is a single step: with no input it shows a form
whose interval field defaults to the stored update_interval option when one
exists and to DEFAULT_UPDATE_INTERVAL = 900 otherwise (and whose token field
has no default), and every submission immediately creates an entry with
empty title and exactly the submitted dict as its payload, with no further
validation or transition. -/
theorem claim_C9_options_flow (stored : Dict) (d : Dict) :
    stepOptionsInit stored (some d) = .createEntry "" none d []
    ∧ (∀ v : Value, dictLookup stored CONF_UPDATE_INTERVAL = some v →
        stepOptionsInit stored none =
          .showForm "init"
            [⟨CONF_API_TOKEN, true, none, .tStr⟩,
             ⟨CONF_UPDATE_INTERVAL, false, some v, .tInt⟩] [])
    ∧ (dictLookup stored CONF_UPDATE_INTERVAL = none →
        stepOptionsInit stored none =
          .showForm "init"
            [⟨CONF_API_TOKEN, true, none, .tStr⟩,
             ⟨CONF_UPDATE_INTERVAL, false, some (.int 900), .tInt⟩] []) := by
  refine ⟨rfl, ?_, ?_⟩
  · intro v hv
    simp [stepOptionsInit, hv, DEFAULT_UPDATE_INTERVAL]
  · intro hv
    simp [stepOptionsInit, hv, DEFAULT_UPDATE_INTERVAL]

/-- Witness for C9: an entry with no stored interval shows the 900 default,
and a submission is emitted verbatim with empty title. -/
theorem claim_C9_witness :
    stepOptionsInit [] (some [(CONF_API_TOKEN, Value.str "T2")]) =
      .createEntry "" none [(CONF_API_TOKEN, Value.str "T2")] []
    ∧ stepOptionsInit [] none =
      .showForm "init"
        [⟨CONF_API_TOKEN, true, none, .tStr⟩,
         ⟨CONF_UPDATE_INTERVAL, false, some (.int 900), .tInt⟩] [] :=
  ⟨(claim_C9_options_flow [] [(CONF_API_TOKEN, Value.str "T2")]).1,
   (claim_C9_options_flow [] [(CONF_API_TOKEN, Value.str "T2")]).2.2 rfl⟩

/-- Inserting a key absent from the stations dict appends the binding. -/
theorem dictInsertS_not_mem (acc : List (String × String)) (k v : String)
    (h : ∀ p ∈ acc, p.1 ≠ k) : dictInsertS acc k v = acc ++ [(k, v)] := by
  have hany : acc.any (fun p => p.1 == k) = false := by
    simp only [List.any_eq_false, beq_iff_eq]
    exact h
  simp [dictInsertS, hany]

/-- Folding dictInsertS over results with uids disjoint from the accumulator
keys and pairwise distinct simply appends one binding per result. -/
theorem buildStations_aux (entries : List SearchEntry) :
    ∀ acc : List (String × String),
      ((acc.map Prod.fst) ++ entries.map SearchEntry.uid).Nodup →
      List.foldl (fun d e => dictInsertS d e.uid e.sname) acc entries =
        acc ++ entries.map (fun e => (e.uid, e.sname)) := by
  induction entries with
  | nil =>
    intro acc _
    simp
  | cons e rest ih =>
    intro acc h
    have hdisj : List.Disjoint (acc.map Prod.fst) ((e :: rest).map SearchEntry.uid) :=
      (List.nodup_append.mp h).2.2
    have hnot : ∀ p ∈ acc, p.1 ≠ e.uid := by
      intro p hp heq
      exact hdisj (heq ▸ List.mem_map_of_mem Prod.fst hp) (by simp)
    have h2 : (((acc ++ [(e.uid, e.sname)]).map Prod.fst)
        ++ rest.map SearchEntry.uid).Nodup := by
      simpa [List.append_assoc] using h
    rw [List.foldl_cons, dictInsertS_not_mem acc e.uid e.sname hnot,
      ih (acc ++ [(e.uid, e.sname)]) h2]
    simp

/-- With pairwise-distinct uids the stations dict lists exactly the results,
in order, keyed by uid with the corresponding display name. -/
theorem buildStations_nodup (entries : List SearchEntry)
    (h : (entries.map SearchEntry.uid).Nodup) :
    buildStations entries = entries.map (fun e => (e.uid, e.sname)) := by
  have := buildStations_aux entries [] (by simpa using h)
  simpa [buildStations] using this

/-- C6 counterexample: the claim promises exactly N selectable entries for a
successful search with N results, but the stations dict is keyed by uid, so
two results sharing the uid A1 (N = 2) collapse to a single entry (the last
display name winning); the run below ends with one station, not two. -/
theorem claim_C6_counterexample :
    dupUidClient.search (.str "T") (.str "paris") =
      .ok [⟨"A1", "Paris Center"⟩, ⟨"A1", "Paris East"⟩]
    ∧ (stepUserSearch dupUidClient (some (mkSearchInput "T" "paris" 600))).2 =
      some ⟨Value.str "T", Value.int 600, [("A1", "Paris East")]⟩
    ∧ ((stepUserSearch dupUidClient (some (mkSearchInput "T" "paris" 600))).2.map
        (fun s => s.stations.length)) ≠ some 2 := by
  refine ⟨rfl, by decide, by decide⟩

/-- C6 (amended): for every search submission whose search call succeeds
with N greater than zero results whose station ids are pairwise distinct,
the pick-station step's selectable set has exactly the N entries keyed by
station id with the corresponding display names (duplicate ids would
collapse into one entry), the session stores the submitted token and
interval with that station dict, and submitting a selection that is not yet
configured creates an entry titled with that station's display name, with
empty data and options holding the token and interval entered in search. -/
theorem claim_C6_search_pick_pipeline (c : Client) (tok kw : String) (iv : Int)
    (entries : List SearchEntry) (configured : List String) (uid nm : String)
    (hs : c.search (.str tok) (.str kw) = .ok entries)
    (hne : entries ≠ [])
    (hnd : (entries.map SearchEntry.uid).Nodup) :
    stepUserSearch c (some (mkSearchInput tok kw iv)) =
      (.showForm "pick_station"
        (pickStationSchema (entries.map (fun e => (e.uid, e.sname)))) [],
       some ⟨.str tok, .int iv, entries.map (fun e => (e.uid, e.sname))⟩)
    ∧ (entries.map (fun e => (e.uid, e.sname))).length = entries.length
    ∧ (lookupS (entries.map (fun e => (e.uid, e.sname))) uid = some nm →
       uid ∉ configured →
       stepPickStation configured
           ⟨.str tok, .int iv, entries.map (fun e => (e.uid, e.sname))⟩
           (some [(CONF_STATION, Value.str uid)]) =
         .createEntry nm (some (.str uid)) []
           [(CONF_API_TOKEN, Value.str tok),
            (CONF_UPDATE_INTERVAL, Value.int iv)]) := by
  refine ⟨?_, by simp, ?_⟩
  · have hemp : entries.isEmpty = false := by
      simpa [List.isEmpty_iff] using hne
    simp [stepUserSearch, mkSearchInput, truthy, dictLookup, CONF_API_TOKEN,
      CONF_KEYWORD, CONF_UPDATE_INTERVAL, hs, hemp, buildStations_nodup entries hnd]
  · intro hlk hcf
    simp [stepPickStation, dictLookup, hcf, hlk]

/-- Witness for C6: the end-to-end search example with token T, keyword
paris, interval 600, one result A1 named Paris Center, nothing configured. -/
theorem claim_C6_witness :
    parisClient.search (.str "T") (.str "paris") = .ok [⟨"A1", "Paris Center"⟩]
    ∧ stepUserSearch parisClient (some (mkSearchInput "T" "paris" 600)) =
      (.showForm "pick_station" (pickStationSchema [("A1", "Paris Center")]) [],
       some ⟨.str "T", .int 600, [("A1", "Paris Center")]⟩)
    ∧ stepPickStation [] ⟨.str "T", .int 600, [("A1", "Paris Center")]⟩
        (some [(CONF_STATION, Value.str "A1")]) =
      .createEntry "Paris Center" (some (.str "A1")) []
        [(CONF_API_TOKEN, Value.str "T"), (CONF_UPDATE_INTERVAL, Value.int 600)] := by
  have h := claim_C6_search_pick_pipeline parisClient "T" "paris" 600
    [⟨"A1", "Paris Center"⟩] [] "A1" "Paris Center" rfl (by decide) (by decide)
  exact ⟨rfl, h.1, h.2.2 (by decide) (by decide)⟩
